import Mathlib

/-
Shallow embedding of the UI-State-Capture program (src/main.py): the checkpoint
classifier, the step-boundary capture hook, per-episode finalization and
persistence, and the sequential batch driver.  Modelling conventions:

* Python strings are Lean `String`s; `str.lower`, substring tests (`in`) and
  slicing are modelled on the underlying character list.
* `datetime` values are modelled as integer clock readings (`Int`); `isoformat`
  / `fromisoformat` round-trip is the identity, so `completed - started`
  subtraction is integer subtraction.  `(t : timedelta).total_seconds()` is the
  integer difference, `* 1000` for milliseconds.
* Every external driver call made inside the hook (`get_browser_state_summary`,
  `get_current_page_title`, `agent.pause`, the blocking `input()` read,
  `agent.resume`, the screenshot event) is an oracle supplied per invocation
  as an `Except String` value: `.error` means the call raised, `.ok` is its
  return value.  The hook's blanket `except Exception` is the fall-through of
  the corresponding `match`.
* The filesystem is an append list of (path, content) pairs; `write_bytes` and
  `write_text` append.  Screenshot bytes are `List Nat`; the bytes/str/base64
  normalization of the raw screenshot result (main.py lines 190-195) is
  collapsed to already-decoded bytes since no recorded field depends on the
  image content, only on the filename.
* `agent.history.model_actions()` is supplied as a list of (name, repr) pairs;
  the nested-list unwrapping of the driver's action shape is flattened for the
  same reason: no claim depends on action labels.
-/

namespace UIStateCapture

/- ===== Python string primitives ===== -/

/-- Model of Python `str.lower` (character-wise; inputs of interest are ASCII). -/
def pyLower (s : String) : String := String.mk (s.data.map Char.toLower)

/-- Does `needle` occur at the head of `hay`? -/
def matchesAt : List Char → List Char → Bool
  | [], _ => true
  | _ :: _, [] => false
  | n :: ns, h :: hs => (n == h) && matchesAt ns hs

/-- Does `needle` occur anywhere in `hay`?  (Python list-of-chars substring.) -/
def hasSubList (needle : List Char) : List Char → Bool
  | [] => needle.isEmpty
  | h :: hs => matchesAt needle (h :: hs) || hasSubList needle hs

/-- Model of Python `needle in hay` on strings. -/
def pyIn (needle hay : String) : Bool := hasSubList needle.data hay.data

/-- Model of Python string slicing `s[:n]`. -/
def pyTake (s : String) (n : Nat) : String := String.mk (s.data.take n)

/- ===== Login detection patterns (main.py lines 24-33) ===== -/

def LOGIN_URL_PATTERNS : List String :=
  ["login", "signin", "sign-in", "sign_in",
   "auth", "authenticate", "oauth",
   "signup"]

def LOGIN_PAGE_INDICATORS : List String :=
  ["password", "email", "username", "sign in", "log in",
   "forgot password", "create account", "register", "signup"]

/- ===== Dataset schema (main.py lines 39-66) ===== -/

/-- One recorded step (`CapturedStep`, main.py lines 39-51).  Field defaults
mirror the pydantic defaults. -/
structure CapturedStep where
  step_number : Nat
  timestamp : Int
  action_type : String
  action_description : String
  url : String
  page_title : String
  screenshot : String
  duration_ms : Option Int := none
  success : Bool := true
  error_message : Option String := none
  required_manual_login : Bool := false
deriving DecidableEq

/-- One episode (`CapturedWorkflow`, main.py lines 53-66). -/
structure CapturedWorkflow where
  task_id : String
  original_query : String
  transformed_task : String
  app_name : String
  app_url : String
  started_at : Int
  completed_at : Option Int := none
  total_duration_seconds : Option Int := none
  success : Bool := false
  steps : List CapturedStep := []
  final_result : Option String := none
  error_summary : Option String := none
deriving DecidableEq

/- ===== Configuration (main.py lines 72-105) ===== -/

/-- `APP_CONFIG` as an insertion-ordered association list:
(key, url, display name). -/
def APP_CONFIG : List (String × String × String) :=
  [("linear", "https://linear.app", "Linear"),
   ("notion", "https://notion.so", "Notion"),
   ("asana", "https://app.asana.com", "Asana"),
   ("github", "https://github.com", "GitHub")]

/-- `detect_app` (main.py lines 80-85): first configured key that occurs in the
lowercased input; otherwise the explicit unknown entry. -/
def detect_app (user_input : String) : String × String × String :=
  let input_lower := pyLower user_input
  match APP_CONFIG.find? (fun e => pyIn e.1 input_lower) with
  | some e => e
  | none => ("unknown", "", "Unknown")

/-- `transform_to_action_task` (main.py lines 88-105): the constrained
instruction text, with the f-string holes filled by concatenation. -/
def transform_to_action_task (user_input app_url app_name : String) : String :=
  "TASK: " ++ user_input ++ "\n\n" ++
  "INSTRUCTIONS:\n" ++
  "1. Navigate to " ++ app_url ++ " if not already there\n" ++
  "2. Perform the requested action by interacting with the UI directly\n\n" ++
  "CONSTRAINTS:\n" ++
  "- ONLY interact with " ++ app_name ++ " UI\n" ++
  "- NEVER search the web or open documentation  \n" ++
  "- NEVER navigate away from " ++ app_name ++ " domains\n" ++
  "- If you know that completing this task would require logging in, navigate there first\n" ++
  "- If you see a login page, STOP and wait - the user will log in manually\n\n" ++
  "COMPLETION: Task is complete when the requested action has been performed."

/- ===== Checkpoint classifier (main.py lines 108-120) ===== -/

/-- The `for pattern in list: if pattern in hay: return True` loop shape. -/
def scanAny : List String → String → Bool
  | [], _ => false
  | p :: ps, hay => if pyIn p hay then true else scanAny ps hay

/-- `is_login_page` (main.py lines 108-120): URL-pattern loop, then
title-indicator loop, else false. -/
def is_login_page (url : String) (title : String := "") : Bool :=
  let url_lower := pyLower url
  let title_lower := pyLower title
  if scanAny LOGIN_URL_PATTERNS url_lower then true
  else if scanAny LOGIN_PAGE_INDICATORS title_lower then true
  else false

/- ===== Capture hook with login detection (main.py lines 127-231) ===== -/

/-- The closure-captured `step_data` dict (main.py lines 128-133). -/
structure StepData where
  count : Nat
  step_start_time : Option Int
  login_handled : Bool
  waiting_for_login : Bool
deriving DecidableEq

/-- The initial `step_data` created by `create_capture_hook`. -/
def step_data_init : StepData :=
  { count := 0, step_start_time := none,
    login_handled := false, waiting_for_login := false }

/-- The outcome of each external driver call performed during one
`on_step_end` invocation, together with the clock readings of that
invocation.  `.error` means the underlying awaited call raised. -/
structure StepEnv where
  tStart : Int
  stateRes : Except String (Option String)
  titleRes : Except String (Option String)
  pauseRes : Except String Unit
  inputRes : Except String Unit
  resumeRes : Except String Unit
  shotRes : Except String (List Nat)
  actions : List (String × String)
  tNow : Int

/-- Content of a persisted file. -/
inductive FileContent where
  | png (bytes : List Nat)
  | jsonTrace (w : CapturedWorkflow)
deriving DecidableEq

/-- Zero-padded step ordinal, Python `f-string` `03d` formatting. -/
def pad3 (n : Nat) : String :=
  if n < 10 then "00" ++ toString n
  else if n < 100 then "0" ++ toString n
  else toString n

/-- The `state.url if state else "unknown"` address fallback
(main.py line 144). -/
def url_of_state (st : Option String) : String :=
  match st with
  | some u => u
  | none => "unknown"

/-- The `... or "untitled"` title fallback (main.py line 145): Python `or`
replaces both a missing and an empty title. -/
def title_or_untitled (ti : Option String) : String :=
  match ti with
  | none => "untitled"
  | some s => if s = "" then "untitled" else s

/-- `on_step_start` (main.py lines 135-136). -/
def on_step_start (t : Int) (sd : StepData) : StepData :=
  { sd with step_start_time := some t }

/-- `on_step_end` (main.py lines 138-229).  The `count` increment happens
before the `try`; each `match` arm returning the state unchanged is the
blanket `except Exception` handler (which only prints). -/
def on_step_end (out_dir : String) (env : StepEnv) (sd : StepData)
    (w : CapturedWorkflow) (fs : List (String × FileContent)) :
    StepData × CapturedWorkflow × List (String × FileContent) :=
  let sd := { sd with count := sd.count + 1 }
  let step_num := sd.count
  match env.stateRes with
  | .error _ => (sd, w, fs)
  | .ok st =>
    let current_url := match st with
      | some u => u
      | none => "unknown"
    match env.titleRes with
    | .error _ => (sd, w, fs)
    | .ok ti =>
      let current_title := match ti with
        | none => "untitled"
        | some s => if s = "" then "untitled" else s
      if is_login_page current_url current_title && !sd.login_handled then
        let sd := { sd with waiting_for_login := true }
        match env.pauseRes with
        | .error _ => (sd, w, fs)
        | .ok _ =>
        match env.inputRes with
        | .error _ => (sd, w, fs)
        | .ok _ =>
        match env.resumeRes with
        | .error _ => (sd, w, fs)
        | .ok _ =>
          let sd := { sd with login_handled := true, waiting_for_login := false }
          (sd,
           { w with steps := w.steps ++ [{
                step_number := step_num,
                timestamp := env.tNow,
                action_type := "manual_login",
                action_description := "User manually logged in",
                url := current_url,
                page_title := current_title,
                screenshot := "",
                required_manual_login := true }] },
           fs)
      else
        match env.shotRes with
        | .error _ => (sd, w, fs)
        | .ok screenshot_bytes =>
          let filename := "step_" ++ pad3 step_num ++ ".png"
          let fs := fs ++ [(out_dir ++ "/" ++ filename, FileContent.png screenshot_bytes)]
          let lastAction := match env.actions.getLast? with
            | none => ("initial", "Initial state")
            | some a => (a.1, pyTake a.2 200)
          let duration_ms := match sd.step_start_time with
            | none => none
            | some t0 => some ((env.tNow - t0) * 1000)
          (sd,
           { w with steps := w.steps ++ [{
                step_number := step_num,
                timestamp := env.tNow,
                action_type := lastAction.1,
                action_description := lastAction.2,
                url := current_url,
                page_title := current_title,
                screenshot := filename,
                duration_ms := duration_ms }] },
           fs)

/-- The driver's step loop as seen by the hooks: each step invokes
`on_step_start` then `on_step_end`. -/
def hookRun (out_dir : String) :
    List StepEnv → StepData × CapturedWorkflow × List (String × FileContent) →
    StepData × CapturedWorkflow × List (String × FileContent)
  | [], acc => acc
  | env :: rest, (sd, w, fs) =>
      hookRun out_dir rest (on_step_end out_dir env (on_step_start env.tStart sd) w fs)

/- ===== Episode execution (main.py lines 237-305) ===== -/

/-- `safe_name` computation (main.py line 253): keep alphanumerics and
spaces of the first 40 characters, replace everything else with an
underscore, then replace spaces with underscores. -/
def safe_name (user_input : String) : String :=
  let kept := String.mk ((pyTake user_input 40).data.map
    (fun c => if c.isAlphanum || c = ' ' then c else '_'))
  String.mk (kept.data.map (fun c => if c = ' ' then '_' else c))

/-- Everything the external world contributes to one `execute_task` call:
the directory timestamp string, the clock readings at episode start and
terminal transition, the per-step driver behavior, and the outcome of
`agent.run` (`.ok` with its optional stringified result, `.error` with the
raised exception's text `str(e)`). -/
structure TaskRun where
  tsStr : String
  t0 : Int
  envs : List StepEnv
  outcome : Except String (Option String)
  tEnd : Int

/-- The success-path terminal write (main.py lines 285-291): `completed_at`,
`success`, `final_result` (Python `str(result) if result else "Completed"`),
then the duration recomputed from the stored start/completion timestamps. -/
def finalize_success (w : CapturedWorkflow) (tEnd : Int) (result : Option String) :
    CapturedWorkflow :=
  let w := { w with
    completed_at := some tEnd,
    success := true,
    final_result := some (match result with | some r => r | none => "Completed") }
  { w with total_duration_seconds := some (tEnd - w.started_at) }

/-- The failure-path terminal write (main.py lines 293-297). -/
def finalize_failure (w : CapturedWorkflow) (tEnd : Int) (e : String) :
    CapturedWorkflow :=
  { w with completed_at := some tEnd, success := false, error_summary := some e }

/-- The per-episode output directory path (main.py lines 252-254). -/
def episode_dir (user_input : String) (run : TaskRun) : String :=
  "ui_dataset/" ++ run.tsStr ++ "_" ++ (detect_app user_input).1 ++ "_" ++
    safe_name user_input

/-- The freshly constructed `CapturedWorkflow` (main.py lines 247-264). -/
def initial_workflow (user_input : String) (run : TaskRun) : CapturedWorkflow :=
  let app := detect_app user_input
  { task_id := run.tsStr ++ "_" ++ app.1,
    original_query := user_input,
    transformed_task := transform_to_action_task user_input app.2.1 app.2.2,
    app_name := app.2.2,
    app_url := app.2.1,
    started_at := run.t0 }

/-- The body of `execute_task` after the API-key check (main.py lines
247-305): build the workflow, run the agent with the capture hooks, apply
exactly one terminal write depending on the run outcome, then persist
`workflow.json` unconditionally. -/
def exec_core (user_input : String) (run : TaskRun) :
    CapturedWorkflow × List (String × FileContent) :=
  let out_dir := episode_dir user_input run
  let res := hookRun out_dir run.envs (step_data_init, initial_workflow user_input run, [])
  let w2 := match run.outcome with
    | .ok result => finalize_success res.2.1 run.tEnd result
    | .error e => finalize_failure res.2.1 run.tEnd e
  (w2, res.2.2 ++ [(out_dir ++ "/workflow.json", FileContent.jsonTrace w2)])

/-- `execute_task` (main.py lines 237-305): the `GOOGLE_API_KEY` check
(`if not api_key: raise ValueError`) followed by the episode body, which
never lets a run exception escape. -/
def execute_task (api_key user_input : String) (run : TaskRun) :
    Except String (CapturedWorkflow × List (String × FileContent)) :=
  if api_key = "" then .error "Missing GOOGLE_API_KEY"
  else .ok (exec_core user_input run)

/-- The task loop of `main` (main.py lines 345-352): episodes run strictly
sequentially; an exception escaping `execute_task` would propagate and abort
the batch, which the `Except` threading mirrors. -/
def runBatch (api_key : String) :
    List (String × TaskRun) →
    Except String (List (CapturedWorkflow × List (String × FileContent)))
  | [] => .ok []
  | (u, r) :: rest =>
    match execute_task api_key u r with
    | .error e => .error e
    | .ok res =>
      match runBatch api_key rest with
      | .error e => .error e
      | .ok others => .ok (res :: others)

/- ===== Specification predicate and concrete demonstration inputs ===== -/

/-- Trace invariant maintained by the capture hook over one episode: step
ordinals are positive, bounded by the invocation count and strictly
increasing; manual-checkpoint records carry an empty screenshot and
`success = true`; at most one manual-checkpoint record exists and only once
the latch is set; the trace never outgrows the invocation count, and a trace
as long as the invocation count is numbered exactly `1..count`. -/
def TraceInv (sd : StepData) (w : CapturedWorkflow) : Prop :=
  (∀ s ∈ w.steps, 1 ≤ s.step_number ∧ s.step_number ≤ sd.count) ∧
  (w.steps.map (fun s => s.step_number)).Pairwise (· < ·) ∧
  (∀ s ∈ w.steps, s.required_manual_login = true →
    s.screenshot = "" ∧ s.success = true) ∧
  (sd.login_handled = false →
    w.steps.countP (fun s => s.required_manual_login) = 0) ∧
  w.steps.countP (fun s => s.required_manual_login) ≤ 1 ∧
  w.steps.length ≤ sd.count ∧
  (w.steps.length = sd.count →
    w.steps.map (fun s => s.step_number) = List.range' 1 sd.count)

/-- A step on an ordinary page on which every driver call succeeds. -/
def okEnv : StepEnv :=
  { tStart := 0, stateRes := .ok (some "https://x.co/b"),
    titleRes := .ok (some "Board"),
    pauseRes := .ok (), inputRes := .ok (), resumeRes := .ok (),
    shotRes := .ok [7], actions := [], tNow := 1 }

/-- A step whose browser-state observation raises. -/
def obsFailEnv : StepEnv := { okEnv with stateRes := .error "net down" }

/-- A step whose page-title retrieval raises. -/
def titleFailEnv : StepEnv := { okEnv with titleRes := .error "title broke" }

/-- An ordinary step whose screenshot capture raises. -/
def shotFailEnv : StepEnv := { okEnv with shotRes := .error "shot broke" }

/-- A step on a login page on which the whole checkpoint handoff succeeds. -/
def loginEnv : StepEnv :=
  { okEnv with
    stateRes := .ok (some "https://x.co/login"),
    titleRes := .ok (some "T") }

/-- A step on a login page on which `agent.pause()` raises. -/
def pauseFailEnv : StepEnv := { loginEnv with pauseRes := .error "pause broke" }

/-- Default record for `List.getD` lookups. -/
def dummyStep : CapturedStep :=
  { step_number := 0, timestamp := 0, action_type := "",
    action_description := "", url := "", page_title := "", screenshot := "" }

/-- A two-ordinary-step run whose agent run finishes normally. -/
def demoOkRun : TaskRun :=
  { tsStr := "ts", t0 := 2, envs := [okEnv, okEnv],
    outcome := .ok none, tEnd := 9 }

/-- A run whose middle step-boundary observation fails. -/
def gapRun : TaskRun := { demoOkRun with envs := [okEnv, obsFailEnv, okEnv] }

/-- A run with a successful checkpoint handoff at its only step. -/
def loginRun : TaskRun := { demoOkRun with envs := [loginEnv] }

/-- A run with a single failing observation and nothing else. -/
def obsFailRun : TaskRun := { demoOkRun with envs := [obsFailEnv] }

/-- A run on which `agent.pause()` raises at the step-1 checkpoint while the
agent run itself finishes normally. -/
def pauseFailRun : TaskRun := { demoOkRun with envs := [pauseFailEnv, okEnv] }

/-- A run raising an exception whose text is empty (Python `Exception()`). -/
def emptyErrRun : TaskRun := { demoOkRun with outcome := .error "" }

/-- A run raising an exception carrying the text "boom". -/
def boomRun : TaskRun := { demoOkRun with outcome := .error "boom" }

/-- A bare workflow value for exercising the terminal writes directly. -/
def demoWorkflow : CapturedWorkflow :=
  { task_id := "id", original_query := "q", transformed_task := "tt",
    app_name := "app", app_url := "u", started_at := 0 }

/- ===== Single-step characterization of the hook ===== -/

/-- Every `on_step_end` invocation increments `count` by exactly one and
appends zero or one record; an appended record carries the incremented count
as its ordinal; a manual-checkpoint record is only appended when the latch
was clear, carries an empty screenshot and `success = true`, and sets the
latch; otherwise the latch is unchanged. -/
theorem on_step_end_spec (out_dir : String) (env : StepEnv) (sd : StepData)
    (w : CapturedWorkflow) (fs : List (String × FileContent)) :
    ∃ t : List CapturedStep,
      (on_step_end out_dir env sd w fs).2.1 = { w with steps := w.steps ++ t } ∧
      (on_step_end out_dir env sd w fs).1.count = sd.count + 1 ∧
      ((t = [] ∧ (on_step_end out_dir env sd w fs).1.login_handled = sd.login_handled)
       ∨ ∃ r, t = [r] ∧ r.step_number = sd.count + 1 ∧
           ((r.required_manual_login = true ∧ r.screenshot = "" ∧ r.success = true ∧
             sd.login_handled = false ∧
             (on_step_end out_dir env sd w fs).1.login_handled = true)
            ∨ (r.required_manual_login = false ∧
               (on_step_end out_dir env sd w fs).1.login_handled = sd.login_handled))) := by
  obtain ⟨tS, stR, tiR, paR, inR, reR, shR, ac, tN⟩ := env
  cases stR with
  | error e =>
      exact ⟨[], by simp [on_step_end], by simp [on_step_end],
        Or.inl ⟨rfl, by simp [on_step_end]⟩⟩
  | ok st =>
    cases tiR with
    | error e =>
        exact ⟨[], by simp [on_step_end], by simp [on_step_end],
          Or.inl ⟨rfl, by simp [on_step_end]⟩⟩
    | ok ti =>
      by_cases hb : (is_login_page
          (match st with | some u => u | none => "unknown")
          (match ti with
           | none => "untitled"
           | some s => if s = "" then "untitled" else s) &&
          !sd.login_handled) = true
      · have hlatch : sd.login_handled = false := by
          rcases Bool.and_eq_true_iff.mp hb with ⟨-, h2⟩
          simpa using h2
        cases paR with
        | error e =>
            exact ⟨[], by simp [on_step_end, hb], by simp [on_step_end, hb],
              Or.inl ⟨rfl, by simp [on_step_end, hb]⟩⟩
        | ok u =>
          cases inR with
          | error e =>
              exact ⟨[], by simp [on_step_end, hb], by simp [on_step_end, hb],
                Or.inl ⟨rfl, by simp [on_step_end, hb]⟩⟩
          | ok u2 =>
            cases reR with
            | error e =>
                exact ⟨[], by simp [on_step_end, hb], by simp [on_step_end, hb],
                  Or.inl ⟨rfl, by simp [on_step_end, hb]⟩⟩
            | ok u3 =>
                have hr : on_step_end out_dir
                    ⟨tS, Except.ok st, Except.ok ti, Except.ok u, Except.ok u2,
                     Except.ok u3, shR, ac, tN⟩ sd w fs
                    = ({ sd with
                          count := sd.count + 1, login_handled := true,
                          waiting_for_login := false },
                       { w with steps := w.steps ++ [⟨sd.count + 1, tN, "manual_login",
                          "User manually logged in",
                          (match st with | some uu => uu | none => "unknown"),
                          (match ti with
                           | none => "untitled"
                           | some s => if s = "" then "untitled" else s),
                          "", none, true, none, true⟩] }, fs) := by
                  simp [on_step_end, hb]
                  constructor
                  · cases st <;> rfl
                  · cases ti <;> rfl
                rw [hr]
                exact ⟨[_], rfl, rfl,
                  Or.inr ⟨_, rfl, rfl, Or.inl ⟨rfl, rfl, rfl, hlatch, rfl⟩⟩⟩
      · cases shR with
        | error e =>
            exact ⟨[], by simp [on_step_end, hb], by simp [on_step_end, hb],
              Or.inl ⟨rfl, by simp [on_step_end, hb]⟩⟩
        | ok bytes =>
            have hr : on_step_end out_dir
                ⟨tS, Except.ok st, Except.ok ti, paR, inR, reR,
                 Except.ok bytes, ac, tN⟩ sd w fs
                = ({ sd with count := sd.count + 1 },
                   { w with steps := w.steps ++ [⟨sd.count + 1, tN,
                      (match ac.getLast? with
                       | none => ("initial", "Initial state")
                       | some a => (a.1, pyTake a.2 200)).1,
                      (match ac.getLast? with
                       | none => ("initial", "Initial state")
                       | some a => (a.1, pyTake a.2 200)).2,
                      (match st with | some uu => uu | none => "unknown"),
                      (match ti with
                       | none => "untitled"
                       | some s => if s = "" then "untitled" else s),
                      "step_" ++ pad3 (sd.count + 1) ++ ".png",
                      (match sd.step_start_time with
                       | none => none
                       | some t0 => some ((tN - t0) * 1000)),
                      true, none, false⟩] },
                   fs ++ [(out_dir ++ "/" ++ ("step_" ++ pad3 (sd.count + 1) ++ ".png"),
                     FileContent.png bytes)]) := by
              simp [on_step_end, hb]
              constructor
              · cases st <;> rfl
              · cases ti <;> rfl
            rw [hr]
            exact ⟨[_], rfl, rfl, Or.inr ⟨_, rfl, rfl, Or.inr ⟨rfl, rfl⟩⟩⟩

/- ===== Invariant preservation and fold lemmas ===== -/

/-- `on_step_start` only records the step start time. -/
theorem on_step_start_count (t : Int) (sd : StepData) :
    (on_step_start t sd).count = sd.count := rfl

/-- A single `on_step_end` invocation preserves the trace invariant. -/
theorem on_step_end_preserves_TraceInv (out_dir : String) (env : StepEnv)
    (sd : StepData) (w : CapturedWorkflow) (fs : List (String × FileContent))
    (h : TraceInv sd w) :
    TraceInv (on_step_end out_dir env sd w fs).1
      (on_step_end out_dir env sd w fs).2.1 := by
  obtain ⟨hub, hpw, hman, hlat0, hle1, hlen, hexact⟩ := h
  obtain ⟨t, hw, hc, hcase⟩ := on_step_end_spec out_dir env sd w fs
  unfold TraceInv
  rw [hw, hc]
  simp only
  rcases hcase with ⟨ht, hlh⟩ | ⟨r, ht, hnum, hsub⟩
  · subst ht
    simp only [List.append_nil]
    refine ⟨?_, hpw, hman, ?_, hle1, by omega, ?_⟩
    · intro s hs
      have := hub s hs
      omega
    · rw [hlh]; exact hlat0
    · intro he
      exact absurd he (by omega)
  · subst ht
    have hcount : ∀ x ∈ w.steps.map (fun s => s.step_number), x ≤ sd.count := by
      intro x hx
      obtain ⟨s, hs, hxeq⟩ := List.mem_map.mp hx
      have := hub s hs
      omega
    refine ⟨?_, ?_, ?_, ?_, ?_, ?_, ?_⟩
    · intro s hs
      rcases List.mem_append.mp hs with hs | hs
      · have := hub s hs; omega
      · rw [List.mem_singleton.mp hs, hnum]; omega
    · rw [List.map_append, List.pairwise_append]
      refine ⟨hpw, by simp, ?_⟩
      intro a ha b hb
      have hb' : b = r.step_number := by simpa using hb
      have := hcount a ha
      rw [hb', hnum]
      omega
    · intro s hs hm
      rcases List.mem_append.mp hs with hs | hs
      · exact hman s hs hm
      · rw [List.mem_singleton.mp hs] at hm ⊢
        rcases hsub with ⟨-, hscr, hsucc, -, -⟩ | ⟨hm', -⟩
        · exact ⟨hscr, hsucc⟩
        · rw [hm'] at hm; cases hm
    · intro hf
      rw [List.countP_append]
      rcases hsub with ⟨-, -, -, -, hlh'⟩ | ⟨hm', hlh'⟩
      · rw [hlh'] at hf; cases hf
      · rw [hlh'] at hf
        rw [hlat0 hf]
        simp [List.countP_cons, hm']
    · rw [List.countP_append]
      rcases hsub with ⟨hm', -, -, hsdl, -⟩ | ⟨hm', -⟩
      · rw [hlat0 hsdl]
        simp [List.countP_cons, hm']
      · have : List.countP (fun s => s.required_manual_login) [r] = 0 := by
          simp [List.countP_cons, hm']
        omega
    · rw [List.length_append, List.length_singleton]
      omega
    · intro he
      rw [List.length_append, List.length_singleton] at he
      have hlen' : w.steps.length = sd.count := by omega
      rw [List.map_append, hexact hlen', List.range'_1_concat]
      simp [hnum, hlen']
      omega

/-- The hook loop preserves the trace invariant. -/
theorem hookRun_preserves_TraceInv (out_dir : String) (envs : List StepEnv) :
    ∀ (sd : StepData) (w : CapturedWorkflow) (fs : List (String × FileContent)),
    TraceInv sd w →
    TraceInv (hookRun out_dir envs (sd, w, fs)).1
      (hookRun out_dir envs (sd, w, fs)).2.1 := by
  induction envs with
  | nil => intro sd w fs h; exact h
  | cons env rest ih =>
    intro sd w fs h
    have h1 : TraceInv (on_step_start env.tStart sd) w := h
    have h2 := on_step_end_preserves_TraceInv out_dir env
      (on_step_start env.tStart sd) w fs h1
    exact ih _ _ _ h2

/-- The hook loop advances the invocation count by the number of steps. -/
theorem hookRun_count (out_dir : String) (envs : List StepEnv) :
    ∀ (sd : StepData) (w : CapturedWorkflow) (fs : List (String × FileContent)),
    (hookRun out_dir envs (sd, w, fs)).1.count = sd.count + envs.length := by
  induction envs with
  | nil => intro sd w fs; rfl
  | cons env rest ih =>
    intro sd w fs
    obtain ⟨t, hw, hc, -⟩ := on_step_end_spec out_dir env (on_step_start env.tStart sd) w fs
    have h2 : (hookRun out_dir rest
        (on_step_end out_dir env (on_step_start env.tStart sd) w fs)).1.count
        = (on_step_end out_dir env (on_step_start env.tStart sd) w fs).1.count
          + rest.length :=
      ih _ _ _
    show (hookRun out_dir rest
        (on_step_end out_dir env (on_step_start env.tStart sd) w fs)).1.count
      = sd.count + (env :: rest).length
    rw [h2, hc, on_step_start_count, List.length_cons]
    omega

/-- The hook loop splits along list append. -/
theorem hookRun_append (out_dir : String) (l1 l2 : List StepEnv) :
    ∀ acc, hookRun out_dir (l1 ++ l2) acc
      = hookRun out_dir l2 (hookRun out_dir l1 acc) := by
  induction l1 with
  | nil => intro acc; rfl
  | cons env rest ih =>
    intro acc
    obtain ⟨sd, w, fs⟩ := acc
    exact ih _

/-- The hook loop only appends records: every non-`steps` workflow field is
kept. -/
theorem hookRun_shape (out_dir : String) (envs : List StepEnv) :
    ∀ (sd : StepData) (w : CapturedWorkflow) (fs : List (String × FileContent)),
    ∃ t, (hookRun out_dir envs (sd, w, fs)).2.1 = { w with steps := w.steps ++ t } := by
  induction envs with
  | nil =>
    intro sd w fs
    refine ⟨[], ?_⟩
    rw [List.append_nil]
    rfl
  | cons env rest ih =>
    intro sd w fs
    obtain ⟨t1, hw1, -, -⟩ := on_step_end_spec out_dir env (on_step_start env.tStart sd) w fs
    obtain ⟨t2, hw2⟩ := ih (on_step_end out_dir env (on_step_start env.tStart sd) w fs).1
      (on_step_end out_dir env (on_step_start env.tStart sd) w fs).2.1
      (on_step_end out_dir env (on_step_start env.tStart sd) w fs).2.2
    refine ⟨t1 ++ t2, ?_⟩
    show (hookRun out_dir rest
        (on_step_end out_dir env (on_step_start env.tStart sd) w fs)).2.1
      = { w with steps := w.steps ++ (t1 ++ t2) }
    rw [hw2, hw1]
    simp [List.append_assoc]

/-- The initial state of an episode satisfies the trace invariant. -/
theorem TraceInv_init (w : CapturedWorkflow) (h : w.steps = []) :
    TraceInv step_data_init w := by
  unfold TraceInv step_data_init
  simp [h]

/-- Both terminal writes keep the step list. -/
theorem finalize_steps (w : CapturedWorkflow) (tEnd : Int) (r : Option String)
    (e : String) :
    (finalize_success w tEnd r).steps = w.steps ∧
    (finalize_failure w tEnd e).steps = w.steps := ⟨rfl, rfl⟩

/-- The finished episode's step list is exactly the hook loop's step list. -/
theorem exec_core_steps (u : String) (run : TaskRun) :
    (exec_core u run).1.steps
      = (hookRun (episode_dir u run) run.envs
          (step_data_init, initial_workflow u run, [])).2.1.steps := by
  unfold exec_core
  cases run.outcome <;> rfl

/- ===== Claim C1 ===== -/

/-- Claim C1 as stated is false on the code: `count` is incremented before
the `try`, so a step-boundary invocation that fails to capture consumes an
ordinal without appending a record.  Concretely, with driver behavior
`[ok, observation-failure, ok]` the resulting trace has two records and the
record at index 1 carries `step_number = 3`, not `1 + 1`. -/
theorem claim_C1_counterexample :
    1 < (exec_core "t" gapRun).1.steps.length ∧
    ((exec_core "t" gapRun).1.steps.getD 1 dummyStep).step_number ≠ 1 + 1 := by
  decide

/-- Claim C1, amended: the recorder assigns each appended record the ordinal
of the `on_step_end` invocation that appended it — 1 + the number of prior
invocations in the episode, not 1 + the current length of the step list:
truncating an episode's driver behavior after its first `k + 1` steps, the
`(k + 1)`-th invocation appends at most one record, and that record carries
ordinal `k + 1`.  Consequently ordinals are strictly increasing with no
duplicates, and if every invocation captures (the trace is as long as the
invocation list) the ordinal list is exactly `1..n`, i.e.
`steps[i].step_number = i + 1`.  An invocation that fails to capture
consumes its ordinal and leaves a gap. -/
theorem claim_C1_amended :
    (∀ (u : String) (run : TaskRun) (pre : List StepEnv) (env : StepEnv),
      ∃ t, (exec_core u { run with envs := pre ++ [env] }).1.steps
          = (exec_core u { run with envs := pre }).1.steps ++ t ∧
        (t = [] ∨ ∃ r, t = [r] ∧ r.step_number = pre.length + 1)) ∧
    (∀ (u : String) (run : TaskRun),
      ((exec_core u run).1.steps.map (fun s => s.step_number)).Pairwise (· < ·)) ∧
    (∀ (u : String) (run : TaskRun),
      (exec_core u run).1.steps.length = run.envs.length →
      (exec_core u run).1.steps.map (fun s => s.step_number)
        = List.range' 1 run.envs.length) := by
  have key : ∀ (u : String) (run : TaskRun),
      TraceInv (hookRun (episode_dir u run) run.envs
          (step_data_init, initial_workflow u run, [])).1
        (hookRun (episode_dir u run) run.envs
          (step_data_init, initial_workflow u run, [])).2.1 :=
    fun u run => hookRun_preserves_TraceInv _ _ _ _ _ (TraceInv_init _ rfl)
  refine ⟨?_, ?_, ?_⟩
  · intro u run pre env
    have h1 : (exec_core u { run with envs := pre ++ [env] }).1.steps
        = (hookRun (episode_dir u run) (pre ++ [env])
            (step_data_init, initial_workflow u run, [])).2.1.steps :=
      exec_core_steps u { run with envs := pre ++ [env] }
    have h2 : (exec_core u { run with envs := pre }).1.steps
        = (hookRun (episode_dir u run) pre
            (step_data_init, initial_workflow u run, [])).2.1.steps :=
      exec_core_steps u { run with envs := pre }
    rw [h1, h2, hookRun_append]
    obtain ⟨t, hw, -, hcase⟩ := on_step_end_spec (episode_dir u run) env
      (on_step_start env.tStart (hookRun (episode_dir u run) pre
        (step_data_init, initial_workflow u run, [])).1)
      (hookRun (episode_dir u run) pre
        (step_data_init, initial_workflow u run, [])).2.1
      (hookRun (episode_dir u run) pre
        (step_data_init, initial_workflow u run, [])).2.2
    refine ⟨t, ?_, ?_⟩
    · show (on_step_end (episode_dir u run) env
          (on_step_start env.tStart (hookRun (episode_dir u run) pre
            (step_data_init, initial_workflow u run, [])).1)
          (hookRun (episode_dir u run) pre
            (step_data_init, initial_workflow u run, [])).2.1
          (hookRun (episode_dir u run) pre
            (step_data_init, initial_workflow u run, [])).2.2).2.1.steps = _
      rw [hw]
    · rcases hcase with ⟨ht, -⟩ | ⟨r, ht, hnum, -⟩
      · exact Or.inl ht
      · refine Or.inr ⟨r, ht, ?_⟩
        rw [hnum, on_step_start_count, hookRun_count]
        simp [step_data_init]
  · intro u run
    obtain ⟨-, hpw, -, -, -, -, -⟩ := key u run
    rw [exec_core_steps]
    exact hpw
  · intro u run h
    obtain ⟨-, -, -, -, -, -, hex⟩ := key u run
    rw [exec_core_steps] at h ⊢
    have hcount : (hookRun (episode_dir u run) run.envs
        (step_data_init, initial_workflow u run, [])).1.count = run.envs.length := by
      rw [hookRun_count]
      simp [step_data_init]
    rw [hcount] at hex
    exact hex h

/-- Witness for the amended C1: a fully captured two-step episode is
numbered `[1, 2]`. -/
theorem claim_C1_witness :
    (exec_core "t" demoOkRun).1.steps.map (fun s => s.step_number)
      = List.range' 1 2 :=
  claim_C1_amended.2.2 "t" demoOkRun (by decide)

/- ===== Claim C2 ===== -/

/-- Claim C2: at most one manual-checkpoint record is ever appended per
episode; moreover, once the `login_handled` latch is set, any further
`on_step_end` invocation keeps the latch set (it is never reset) and appends
no manual-checkpoint record, whatever the classifier says about the page. -/
theorem claim_C2 :
    (∀ (u : String) (run : TaskRun),
      (exec_core u run).1.steps.countP (fun s => s.required_manual_login) ≤ 1) ∧
    (∀ (out_dir : String) (env : StepEnv) (c : Nat) (st : Option Int) (wl : Bool)
      (w : CapturedWorkflow) (fs : List (String × FileContent)),
      (on_step_end out_dir env ⟨c, st, true, wl⟩ w fs).1.login_handled = true ∧
      (on_step_end out_dir env ⟨c, st, true, wl⟩ w fs).2.1.steps.countP
          (fun s => s.required_manual_login)
        = w.steps.countP (fun s => s.required_manual_login)) := by
  constructor
  · intro u run
    obtain ⟨-, -, -, -, hle1, -, -⟩ :=
      hookRun_preserves_TraceInv (episode_dir u run) run.envs
        step_data_init (initial_workflow u run) [] (TraceInv_init _ rfl)
    rw [exec_core_steps]
    exact hle1
  · intro out_dir env c st wl w fs
    obtain ⟨t, hw, -, hcase⟩ := on_step_end_spec out_dir env ⟨c, st, true, wl⟩ w fs
    rcases hcase with ⟨ht, hlh⟩ | ⟨r, ht, -, hsub⟩
    · subst ht
      exact ⟨by rw [hlh], by rw [hw]; simp⟩
    · subst ht
      rcases hsub with ⟨-, -, -, hsdl, -⟩ | ⟨hm', hlh'⟩
      · cases hsdl
      · refine ⟨by rw [hlh'], ?_⟩
        rw [hw]
        simp [List.countP_append, List.countP_cons, hm']

/- ===== Claim C3 ===== -/

/-- Claim C3: every step record carrying `required_manual_login = true` has
an empty screenshot reference and `success = true`; all other records carry
`required_manual_login = false` by construction (the only other append site
sets the flag to false). -/
theorem claim_C3 (u : String) (run : TaskRun) (s : CapturedStep)
    (hs : s ∈ (exec_core u run).1.steps)
    (hm : s.required_manual_login = true) :
    s.screenshot = "" ∧ s.success = true := by
  rw [exec_core_steps] at hs
  obtain ⟨-, -, hman, -, -, -, -⟩ :=
    hookRun_preserves_TraceInv (episode_dir u run) run.envs
      step_data_init (initial_workflow u run) [] (TraceInv_init _ rfl)
  exact hman s hs hm

/-- Witness for C3: the manual record of a concrete checkpoint episode. -/
theorem claim_C3_witness :
    ((exec_core "t" loginRun).1.steps.getD 0 dummyStep).screenshot = "" ∧
    ((exec_core "t" loginRun).1.steps.getD 0 dummyStep).success = true :=
  claim_C3 "t" loginRun _ (by decide) (by decide)

/- ===== Claim C4 ===== -/

/-- The early-return pattern loop finds a match iff some pattern of the list
occurs in the scanned string. -/
theorem scanAny_eq_true_iff (l : List String) (hay : String) :
    scanAny l hay = true ↔ ∃ p ∈ l, pyIn p hay = true := by
  induction l with
  | nil => simp [scanAny]
  | cons p ps ih =>
    by_cases hp : pyIn p hay = true
    · simp [scanAny, hp]
    · simp [scanAny, hp, ih]

/-- Claim C4: the classifier answers the four specified examples as claimed,
and in general returns true exactly when the lowercased address contains one
of the URL patterns or the lowercased title contains one of the content
indicators (logical OR, either alone suffices; empty inputs are handled and
yield false on both scans). -/
theorem claim_C4 :
    is_login_page "https://app.example.com/login" "" = true ∧
    is_login_page "https://app.example.com/board" "Team Board" = false ∧
    is_login_page "https://x.com/x" "Please Sign In" = true ∧
    is_login_page "" "" = false ∧
    ∀ (url title : String),
      is_login_page url title = true ↔
        ((∃ p ∈ LOGIN_URL_PATTERNS, pyIn p (pyLower url) = true) ∨
         (∃ i ∈ LOGIN_PAGE_INDICATORS, pyIn i (pyLower title) = true)) := by
  refine ⟨by decide, by decide, by decide, by decide, ?_⟩
  intro url title
  have hb : is_login_page url title
      = (scanAny LOGIN_URL_PATTERNS (pyLower url)
         || scanAny LOGIN_PAGE_INDICATORS (pyLower title)) := by
    unfold is_login_page
    by_cases h1 : scanAny LOGIN_URL_PATTERNS (pyLower url) = true <;>
      by_cases h2 : scanAny LOGIN_PAGE_INDICATORS (pyLower title) = true <;>
      simp [h1, h2]
  rw [hb, Bool.or_eq_true, scanAny_eq_true_iff, scanAny_eq_true_iff]

/- ===== Claim C5 ===== -/

/-- Claim C5 as stated is false on the code: the `except` handler only
prints.  With a single step whose observation fails, the episode continues
and is finalized normally, but no best-effort failed record is appended:
the persisted trace is empty, so in particular no record marked as a failed
capture exists. -/
theorem claim_C5_counterexample :
    (exec_core "t" obsFailRun).1.steps = [] ∧
    (exec_core "t" obsFailRun).1.completed_at = some 9 ∧
    (exec_core "t" obsFailRun).1.success = true := by
  decide

/-- Claim C5, amended: when the page observation raises at a step boundary —
the browser-state (address) retrieval, the title retrieval, or, on an
ordinary non-handoff step, the screenshot capture (the only step kind on
which a screenshot is attempted) — the hook swallows the exception: the
invocation count still advances but the workflow and file store are
untouched (no record of any kind is appended), and the step loop continues
with the remaining steps; the episode is never terminated by such a
transient observation failure. -/
theorem claim_C5_amended (out_dir : String) (env : StepEnv) (sd : StepData)
    (w : CapturedWorkflow) (fs : List (String × FileContent))
    (rest : List StepEnv) (msg : String)
    (hobs : env.stateRes = Except.error msg
      ∨ (∃ st, env.stateRes = Except.ok st ∧ env.titleRes = Except.error msg)
      ∨ (∃ st ti, env.stateRes = Except.ok st ∧ env.titleRes = Except.ok ti ∧
          (is_login_page (url_of_state st) (title_or_untitled ti)
            && !sd.login_handled) = false ∧
          env.shotRes = Except.error msg)) :
    on_step_end out_dir env sd w fs = ({ sd with count := sd.count + 1 }, w, fs) ∧
    hookRun out_dir (env :: rest) (sd, w, fs)
      = hookRun out_dir rest
          ({ sd with count := sd.count + 1, step_start_time := some env.tStart },
           w, fs) := by
  obtain ⟨tS, stR, tiR, paR, inR, reR, shR, ac, tN⟩ := env
  have main : ∀ (sd1 : StepData), sd1.login_handled = sd.login_handled →
      on_step_end out_dir ⟨tS, stR, tiR, paR, inR, reR, shR, ac, tN⟩ sd1 w fs
        = ({ sd1 with count := sd1.count + 1 }, w, fs) := by
    intro sd1 hl1
    rcases hobs with h1 | ⟨st, hst, hti⟩ | ⟨st, ti, hst, hti, hcond, hshot⟩
    · have h' : stR = Except.error msg := h1
      subst h'
      rfl
    · have hst' : stR = Except.ok st := hst
      have hti' : tiR = Except.error msg := hti
      subst hst' hti'
      rfl
    · have hst' : stR = Except.ok st := hst
      have hti' : tiR = Except.ok ti := hti
      have hsh' : shR = Except.error msg := hshot
      subst hst' hti' hsh'
      cases st <;> cases ti <;>
        (simp only [url_of_state, title_or_untitled] at hcond;
         rw [← hl1] at hcond;
         simp [on_step_end, hcond])
  refine ⟨main sd rfl, ?_⟩
  show hookRun out_dir rest
      (on_step_end out_dir ⟨tS, stR, tiR, paR, inR, reR, shR, ac, tN⟩
        (on_step_start tS sd) w fs) = _
  rw [main (on_step_start tS sd) rfl]
  rfl

/-- Witness for the amended C5: each kind of concrete observation failure —
state retrieval, title retrieval, and the screenshot capture of an ordinary
step — leaves the episode state untouched apart from the consumed ordinal,
and the loop running. -/
theorem claim_C5_witness :
    (on_step_end "d" obsFailEnv step_data_init demoWorkflow []
      = ({ step_data_init with count := step_data_init.count + 1 },
         demoWorkflow, []) ∧
     hookRun "d" [obsFailEnv] (step_data_init, demoWorkflow, [])
      = hookRun "d" []
          ({ step_data_init with
             count := step_data_init.count + 1,
             step_start_time := some obsFailEnv.tStart },
           demoWorkflow, [])) ∧
    (on_step_end "d" titleFailEnv step_data_init demoWorkflow []
      = ({ step_data_init with count := step_data_init.count + 1 },
         demoWorkflow, []) ∧
     hookRun "d" [titleFailEnv] (step_data_init, demoWorkflow, [])
      = hookRun "d" []
          ({ step_data_init with
             count := step_data_init.count + 1,
             step_start_time := some titleFailEnv.tStart },
           demoWorkflow, [])) ∧
    (on_step_end "d" shotFailEnv step_data_init demoWorkflow []
      = ({ step_data_init with count := step_data_init.count + 1 },
         demoWorkflow, []) ∧
     hookRun "d" [shotFailEnv] (step_data_init, demoWorkflow, [])
      = hookRun "d" []
          ({ step_data_init with
             count := step_data_init.count + 1,
             step_start_time := some shotFailEnv.tStart },
           demoWorkflow, [])) :=
  ⟨claim_C5_amended "d" obsFailEnv step_data_init demoWorkflow [] [] "net down"
      (Or.inl rfl),
   claim_C5_amended "d" titleFailEnv step_data_init demoWorkflow [] [] "title broke"
      (Or.inr (Or.inl ⟨some "https://x.co/b", rfl, rfl⟩)),
   claim_C5_amended "d" shotFailEnv step_data_init demoWorkflow [] [] "shot broke"
      (Or.inr (Or.inr ⟨some "https://x.co/b", some "Board", rfl, rfl,
        by decide, rfl⟩))⟩

/- ===== Claim C6 ===== -/

/-- Claim C6 as stated is false on the code: `agent.pause()` and
`agent.resume()` are invoked inside the same `try` whose blanket `except`
only prints, so a pause failure is not fatal.  Concretely, with a pause
failure at the step-1 checkpoint and a normally finishing run, the episode
is finalized as successful with no error captured, and it kept recording
afterwards instead of being abandoned. -/
theorem claim_C6_counterexample :
    (exec_core "t" pauseFailRun).1.success = true ∧
    (exec_core "t" pauseFailRun).1.error_summary = none ∧
    (exec_core "t" pauseFailRun).1.steps.length = 1 ∧
    (exec_core "t" pauseFailRun).1.steps.countP
        (fun s => s.required_manual_login) = 0 := by
  decide

/-- Claim C6, amended: if the pause capability (or, after a successful pause
and acknowledgment, the resume capability) raises during the checkpoint
handoff, the hook's blanket handler catches it: no manual record is
appended, the workflow and file store are unchanged, the latch stays as it
was (`waiting_for_login` is left set) and the episode simply continues; no
terminal write happens because of the handoff failure. -/
theorem claim_C6_amended (out_dir : String) (env : StepEnv) (sd : StepData)
    (w : CapturedWorkflow) (fs : List (String × FileContent))
    (u ti msg : String)
    (hl : sd.login_handled = false)
    (hst : env.stateRes = Except.ok (some u))
    (hti : env.titleRes = Except.ok (some ti))
    (hne : ti ≠ "")
    (hlp : is_login_page u ti = true)
    (hfail : env.pauseRes = Except.error msg ∨
      (env.pauseRes = Except.ok () ∧ env.inputRes = Except.ok () ∧
       env.resumeRes = Except.error msg)) :
    on_step_end out_dir env sd w fs
      = ({ sd with count := sd.count + 1, waiting_for_login := true }, w, fs) := by
  obtain ⟨tS, stR, tiR, paR, inR, reR, shR, ac, tN⟩ := env
  have hst' : stR = Except.ok (some u) := hst
  have hti' : tiR = Except.ok (some ti) := hti
  subst hst' hti'
  rcases hfail with hp | ⟨hp, hi, hre⟩
  · have hp' : paR = Except.error msg := hp
    subst hp'
    simp [on_step_end, hne, hl, hlp]
  · have hp' : paR = Except.ok () := hp
    have hi' : inR = Except.ok () := hi
    have hre' : reR = Except.error msg := hre
    subst hp' hi' hre'
    simp [on_step_end, hne, hl, hlp]

/-- Witness for the amended C6: a concrete pause failure during a checkpoint
handoff leaves the episode untouched apart from the consumed ordinal. -/
theorem claim_C6_witness :
    on_step_end "d" pauseFailEnv step_data_init demoWorkflow []
      = ({ step_data_init with
           count := step_data_init.count + 1,
           waiting_for_login := true },
         demoWorkflow, []) :=
  claim_C6_amended "d" pauseFailEnv step_data_init demoWorkflow []
    "https://x.co/login" "T" "pause broke" rfl rfl rfl (by decide) (by decide)
    (Or.inl rfl)

/- ===== Claim C7 ===== -/

/-- Claim C7 as stated is false on the code: there is no finalize guard at
all.  The terminal writes are plain field assignments; applying a second
terminal write to an already finalized workflow succeeds and silently
overwrites `completed_at` and `success`. -/
theorem claim_C7_counterexample :
    (finalize_success demoWorkflow 5 none).completed_at = some 5 ∧
    (finalize_success demoWorkflow 5 none).success = true ∧
    (finalize_failure (finalize_success demoWorkflow 5 none) 9 "late").completed_at
      = some 9 ∧
    (finalize_failure (finalize_success demoWorkflow 5 none) 9 "late").success
      = false := by
  decide

/-- Claim C7, amended: the terminal writes are unconditional overwrites —
they never fail and always install the new `completed_at`/`success`
regardless of any previously set values; within one `execute_task` run,
however, the terminal transition is applied exactly once (`completed_at`
ends up set from the single applied write, and the step hook never touches
it). -/
theorem claim_C7_amended :
    (∀ (w : CapturedWorkflow) (t : Int) (e : String),
      (finalize_failure w t e).completed_at = some t ∧
      (finalize_failure w t e).success = false ∧
      (finalize_failure w t e).error_summary = some e) ∧
    (∀ (w : CapturedWorkflow) (t : Int) (r : Option String),
      (finalize_success w t r).completed_at = some t ∧
      (finalize_success w t r).success = true) ∧
    (∀ (u : String) (run : TaskRun),
      (exec_core u run).1.completed_at = some run.tEnd) ∧
    (∀ (out_dir : String) (env : StepEnv) (sd : StepData) (w : CapturedWorkflow)
      (fs : List (String × FileContent)),
      (on_step_end out_dir env sd w fs).2.1.completed_at = w.completed_at) := by
  refine ⟨fun w t e => ⟨rfl, rfl, rfl⟩, fun w t r => ⟨rfl, rfl⟩, ?_, ?_⟩
  · intro u run
    cases h : run.outcome with
    | ok r => simp [exec_core, h, finalize_success]
    | error e => simp [exec_core, h, finalize_failure]
  · intro out_dir env sd w fs
    obtain ⟨t, hw, -, -⟩ := on_step_end_spec out_dir env sd w fs
    rw [hw]

/- ===== Claim C8 ===== -/

/-- Every episode persists its `workflow.json` as the last written file of
its output directory, holding the finalized workflow. -/
theorem exec_core_persists (u : String) (run : TaskRun) :
    (exec_core u run).2.getLast?
      = some (episode_dir u run ++ "/workflow.json",
          FileContent.jsonTrace (exec_core u run).1) := by
  unfold exec_core
  exact List.getLast?_concat _

/-- A run raising an exception is finalized as failed with the exception's
text. -/
theorem exec_core_failed (u : String) (run : TaskRun) (msg : String)
    (h : run.outcome = Except.error msg) :
    (exec_core u run).1.success = false ∧
    (exec_core u run).1.error_summary = some msg := by
  constructor <;> simp [exec_core, h, finalize_failure]

/-- With the API key present, the batch loop completes and yields one
episode result per queued task, in order. -/
theorem runBatch_ok (api_key : String) (hk : api_key ≠ "") :
    ∀ ts : List (String × TaskRun),
      runBatch api_key ts = .ok (ts.map (fun p => exec_core p.1 p.2)) := by
  intro ts
  induction ts with
  | nil => rfl
  | cons p rest ih =>
    obtain ⟨u, r⟩ := p
    simp [runBatch, execute_task, hk, ih]

/-- Claim C8 as stated is false on the code in one point: the persisted
error summary is `str(e)`, which is empty for an exception constructed
without a message (Python `Exception()`); the episode is then finalized as
failed with an EMPTY error summary, not a non-empty one. -/
theorem claim_C8_counterexample :
    (exec_core "t" emptyErrRun).1.success = false ∧
    (exec_core "t" emptyErrRun).1.error_summary = some "" := by
  decide

/-- Claim C8, amended: in a batch, a task whose run raises mid-run with a
non-empty exception text is finalized as failed with that (non-empty) text
as error summary, its trace file is still persisted to its episode
directory, and every other queued task still executes and persists its own
trace — the batch is never aborted by one failing episode. -/
theorem claim_C8_amended (api_key msg : String) (hk : api_key ≠ "")
    (hm : msg ≠ "") (pre post : List (String × TaskRun)) (u : String)
    (r : TaskRun) (hr : r.outcome = Except.error msg) :
    ∃ resPre resBad resPost,
      runBatch api_key (pre ++ (u, r) :: post) = .ok (resPre ++ resBad :: resPost) ∧
      resPre.length = pre.length ∧
      resPost.length = post.length ∧
      resBad.1.success = false ∧
      resBad.1.error_summary = some msg ∧
      resBad.1.error_summary ≠ some "" ∧
      resBad.2.getLast? = some (episode_dir u r ++ "/workflow.json",
        FileContent.jsonTrace resBad.1) ∧
      ∀ x ∈ resPost, ∃ p, x.2.getLast? = some (p, FileContent.jsonTrace x.1) := by
  refine ⟨pre.map (fun p => exec_core p.1 p.2), exec_core u r,
    post.map (fun p => exec_core p.1 p.2), ?_, by simp, by simp, ?_, ?_, ?_, ?_, ?_⟩
  · rw [runBatch_ok api_key hk]
    simp
  · exact (exec_core_failed u r msg hr).1
  · exact (exec_core_failed u r msg hr).2
  · rw [(exec_core_failed u r msg hr).2]
    simp [hm]
  · exact exec_core_persists u r
  · intro x hx
    obtain ⟨p, -, hxeq⟩ := List.mem_map.mp hx
    subst hxeq
    exact ⟨episode_dir p.1 p.2 ++ "/workflow.json", exec_core_persists p.1 p.2⟩

/-- Witness for the amended C8: a two-task batch whose first task raises
with text "boom". -/
theorem claim_C8_witness :
    ∃ resPre resBad resPost,
      runBatch "k" ([] ++ ("t", boomRun) :: [("t2", demoOkRun)])
        = .ok (resPre ++ resBad :: resPost) ∧
      resPre.length = List.length ([] : List (String × TaskRun)) ∧
      resPost.length = List.length [("t2", demoOkRun)] ∧
      resBad.1.success = false ∧
      resBad.1.error_summary = some "boom" ∧
      resBad.1.error_summary ≠ some "" ∧
      resBad.2.getLast? = some (episode_dir "t" boomRun ++ "/workflow.json",
        FileContent.jsonTrace resBad.1) ∧
      ∀ x ∈ resPost, ∃ p, x.2.getLast? = some (p, FileContent.jsonTrace x.1) :=
  claim_C8_amended "k" "boom" (by decide) (by decide) [] [("t2", demoOkRun)]
    "t" boomRun rfl

/- ===== Claim C9 ===== -/

/-- Claim C9 as stated is false on the code: the duration is computed only
on the success path.  Concretely, a failing run reaches its terminal
transition (`completed_at` becomes set) with `total_duration_seconds` left
`None`, not `completed_at - started_at`. -/
theorem claim_C9_counterexample :
    (exec_core "t" boomRun).1.completed_at = some 9 ∧
    (exec_core "t" boomRun).1.started_at = 2 ∧
    (exec_core "t" boomRun).1.total_duration_seconds = none ∧
    (exec_core "t" boomRun).1.total_duration_seconds ≠ some (9 - 2) := by
  decide

/-- Claim C9, amended: the duration field is written only at the successful
terminal transition, where it equals `completed_at - started_at`
(`tEnd - t0`); at the failure terminal transition it remains `None`, and the
step hook never writes it. -/
theorem claim_C9_amended :
    (∀ (u : String) (run : TaskRun),
      (exec_core u run).1.total_duration_seconds
        = match run.outcome with
          | .ok _ => some (run.tEnd - run.t0)
          | .error _ => none) ∧
    (∀ (out_dir : String) (env : StepEnv) (sd : StepData) (w : CapturedWorkflow)
      (fs : List (String × FileContent)),
      (on_step_end out_dir env sd w fs).2.1.total_duration_seconds
        = w.total_duration_seconds) := by
  constructor
  · intro u run
    obtain ⟨t, hsh⟩ := hookRun_shape (episode_dir u run) run.envs step_data_init
      (initial_workflow u run) []
    cases h : run.outcome with
    | ok res =>
      have hst : (hookRun (episode_dir u run) run.envs
          (step_data_init, initial_workflow u run, [])).2.1.started_at = run.t0 := by
        rw [hsh]
        rfl
      simp [exec_core, h, finalize_success, hst]
    | error e =>
      have htd : (hookRun (episode_dir u run) run.envs
          (step_data_init, initial_workflow u run, [])).2.1.total_duration_seconds
          = none := by
        rw [hsh]
        rfl
      simp [exec_core, h, finalize_failure, htd]
  · intro out_dir env sd w fs
    obtain ⟨t, hw, -, -⟩ := on_step_end_spec out_dir env sd w fs
    rw [hw]

/- ===== Claim C10 ===== -/

/-- Claim C10: at episode termination exactly one of `final_result` and
`error_summary` is set: a successful run has `final_result` present (the
stringified result, or "Completed" when the result is falsy) and
`error_summary = None`; a failed run has `error_summary` set to the
exception text and `final_result = None`. -/
theorem claim_C10 (u : String) (run : TaskRun) :
    match run.outcome with
    | .ok r =>
        (exec_core u run).1.success = true ∧
        (exec_core u run).1.final_result
          = some (match r with | some s => s | none => "Completed") ∧
        (exec_core u run).1.error_summary = none
    | .error e =>
        (exec_core u run).1.success = false ∧
        (exec_core u run).1.error_summary = some e ∧
        (exec_core u run).1.final_result = none := by
  obtain ⟨t, hsh⟩ := hookRun_shape (episode_dir u run) run.envs step_data_init
    (initial_workflow u run) []
  have hes : (hookRun (episode_dir u run) run.envs
      (step_data_init, initial_workflow u run, [])).2.1.error_summary = none := by
    rw [hsh]
    rfl
  have hfr : (hookRun (episode_dir u run) run.envs
      (step_data_init, initial_workflow u run, [])).2.1.final_result = none := by
    rw [hsh]
    rfl
  cases h : run.outcome with
  | ok r => exact ⟨by simp [exec_core, h, finalize_success],
      by simp [exec_core, h, finalize_success],
      by simp [exec_core, h, finalize_success, hes]⟩
  | error e => exact ⟨by simp [exec_core, h, finalize_failure],
      by simp [exec_core, h, finalize_failure],
      by simp [exec_core, h, finalize_failure, hfr]⟩

end UIStateCapture
